import Mathlib

/-!
# GestIQ — verification of the gesture classification and dispatch core

Shallow embedding of `src/gesture_control.py` (class `GestureController`) and
the configuration in `src/config.py`.  Coordinates and timestamps are modelled
as exact rationals (`ℚ`); Python's `time.time()` reads and the external
queries (`pyautogui.size()`, `pyautogui.position()`) are passed in through an
explicit `Env` record; OS side effects (`subprocess.Popen`, `pyautogui.hotkey`,
`pyautogui.press`) become an explicit effect list.  The one numeric deviation:
`detect_ok_gesture` compares `sqrt(dx² + dy²) < ok_distance`; since both sides
are nonnegative this is embedded as the equivalent `dx² + dy² < ok_distance²`,
keeping everything inside `ℚ`.
-/

namespace GestIQ

/-- One normalized 2-D hand landmark (the `z` coordinate is never read by the
classifiers and is omitted). -/
structure Keypoint where
  x : ℚ
  y : ℚ
  deriving DecidableEq, Repr

/-- The named keypoints extracted by `GestureController._get_landmark_points`
(landmarks 4,3,2, 8,6, 12,10, 16,14, 20,18), together with landmark 9
(`palm_center`), which `_process_direct_window_control` reads directly off the
raw landmark array. -/
structure HandPose where
  thumb_tip : Keypoint
  thumb_ip : Keypoint
  thumb_mcp : Keypoint
  index_tip : Keypoint
  index_pip : Keypoint
  middle_tip : Keypoint
  middle_pip : Keypoint
  ring_tip : Keypoint
  ring_pip : Keypoint
  pinky_tip : Keypoint
  pinky_pip : Keypoint
  palm_center : Keypoint
  deriving DecidableEq, Repr

/-- `GESTURE_CONFIG['ok_distance']` from `config.py`. -/
def ok_distance : ℚ := 0.05

/-- `GestureController.detect_ok_gesture`.  `none` models a falsy
`hand_landmarks` argument (`if not hand_landmarks: return False`).  The
Euclidean-distance comparison is embedded squared (see module docstring). -/
def detect_ok_gesture : Option HandPose → Bool
  | none => false
  | some p =>
    let dx := p.thumb_tip.x - p.index_tip.x
    let dy := p.thumb_tip.y - p.index_tip.y
    let other_fingers_extended : Bool :=
      p.middle_tip.y < p.middle_pip.y ∧
      p.ring_tip.y < p.ring_pip.y ∧
      p.pinky_tip.y < p.pinky_pip.y
    (dx ^ 2 + dy ^ 2 < ok_distance ^ 2 : Bool) && other_fingers_extended

/-- `GestureController.detect_thumbs_up`. -/
def detect_thumbs_up : Option HandPose → Bool
  | none => false
  | some p =>
    let thumb_up : Bool :=
      p.thumb_tip.y < p.thumb_ip.y ∧ p.thumb_ip.y < p.thumb_mcp.y
    let other_fingers_closed : Bool :=
      p.index_tip.y > p.index_pip.y ∧
      p.middle_tip.y > p.middle_pip.y ∧
      p.ring_tip.y > p.ring_pip.y ∧
      p.pinky_tip.y > p.pinky_pip.y
    thumb_up && other_fingers_closed

/-- `GestureController.detect_copy_gesture`. -/
def detect_copy_gesture : Option HandPose → Bool
  | none => false
  | some p =>
    let index_extended : Bool := p.index_tip.y < p.index_pip.y - 0.02
    let middle_extended : Bool := p.middle_tip.y < p.middle_pip.y - 0.02
    let thumb_closed : Bool := p.thumb_tip.y > p.thumb_ip.y - 0.01
    let ring_closed : Bool := p.ring_tip.y > p.ring_pip.y - 0.01
    let pinky_closed : Bool := p.pinky_tip.y > p.pinky_pip.y - 0.01
    index_extended && middle_extended && thumb_closed && ring_closed && pinky_closed

/-- `GestureController.detect_paste_gesture`. -/
def detect_paste_gesture : Option HandPose → Bool
  | none => false
  | some p =>
    let thumb_extended : Bool := p.thumb_tip.y < p.thumb_ip.y - 0.02
    let index_extended : Bool := p.index_tip.y < p.index_pip.y - 0.02
    let middle_closed : Bool := p.middle_tip.y > p.middle_pip.y - 0.01
    let ring_closed : Bool := p.ring_tip.y > p.ring_pip.y - 0.01
    let pinky_closed : Bool := p.pinky_tip.y > p.pinky_pip.y - 0.01
    thumb_extended && index_extended && middle_closed && ring_closed && pinky_closed

/-- `GestureController.detect_move_window_gesture`. -/
def detect_move_window_gesture : Option HandPose → Bool
  | none => false
  | some p =>
    let index_extended : Bool := p.index_tip.y < p.index_pip.y - 0.02
    let middle_extended : Bool := p.middle_tip.y < p.middle_pip.y - 0.02
    let ring_extended : Bool := p.ring_tip.y < p.ring_pip.y - 0.02
    let thumb_closed : Bool := p.thumb_tip.y > p.thumb_ip.y - 0.01
    let pinky_closed : Bool := p.pinky_tip.y > p.pinky_pip.y - 0.01
    index_extended && middle_extended && ring_extended && thumb_closed && pinky_closed

/-- `GestureController.detect_resize_window_gesture`. -/
def detect_resize_window_gesture : Option HandPose → Bool
  | none => false
  | some p =>
    let thumb_extended : Bool := p.thumb_tip.y < p.thumb_ip.y - 0.02
    let index_extended : Bool := p.index_tip.y < p.index_pip.y - 0.02
    let middle_extended : Bool := p.middle_tip.y < p.middle_pip.y - 0.02
    let ring_closed : Bool := p.ring_tip.y > p.ring_pip.y - 0.01
    let pinky_closed : Bool := p.pinky_tip.y > p.pinky_pip.y - 0.01
    thumb_extended && index_extended && middle_extended && ring_closed && pinky_closed

/-- `GestureController.detect_minimize_window_gesture`. -/
def detect_minimize_window_gesture : Option HandPose → Bool
  | none => false
  | some p =>
    let thumb_down : Bool :=
      p.thumb_tip.y > p.thumb_ip.y ∧ p.thumb_ip.y > p.thumb_mcp.y
    let other_fingers_closed : Bool :=
      p.index_tip.y > p.index_pip.y ∧
      p.middle_tip.y > p.middle_pip.y ∧
      p.ring_tip.y > p.ring_pip.y ∧
      p.pinky_tip.y > p.pinky_pip.y
    thumb_down && other_fingers_closed

/-- `GestureController.detect_direct_window_control_gesture`. -/
def detect_direct_window_control_gesture : Option HandPose → Bool
  | none => false
  | some p =>
    let thumb_extended : Bool := p.thumb_tip.y < p.thumb_ip.y - 0.02
    let index_extended : Bool := p.index_tip.y < p.index_pip.y - 0.02
    let middle_extended : Bool := p.middle_tip.y < p.middle_pip.y - 0.02
    let ring_extended : Bool := p.ring_tip.y < p.ring_pip.y - 0.02
    let pinky_extended : Bool := p.pinky_tip.y < p.pinky_pip.y - 0.02
    thumb_extended && index_extended && middle_extended && ring_extended && pinky_extended

/-- The spec's closed gesture enumeration. -/
inductive GestureLabel where
  | NONE
  | OK
  | THUMBS_UP
  | COPY
  | PASTE
  | MOVE_WINDOW
  | RESIZE_WINDOW
  | MINIMIZE_WINDOW
  | DIRECT_WINDOW_CONTROL
  deriving DecidableEq, Repr

/-- The Gesture Resolver: the `if`/`elif` chain of
`GestureController._process_gestures` abstracted to the label it selects. -/
def resolveGesture (hp : Option HandPose) : GestureLabel :=
  if detect_ok_gesture hp then .OK
  else if detect_thumbs_up hp then .THUMBS_UP
  else if detect_copy_gesture hp then .COPY
  else if detect_paste_gesture hp then .PASTE
  else if detect_move_window_gesture hp then .MOVE_WINDOW
  else if detect_resize_window_gesture hp then .RESIZE_WINDOW
  else if detect_minimize_window_gesture hp then .MINIMIZE_WINDOW
  else if detect_direct_window_control_gesture hp then .DIRECT_WINDOW_CONTROL
  else .NONE

/-- Modelled from the spec (§4.3): "evaluate classifiers in this fixed priority
order and return the first match: OK, THUMBS_UP, COPY, PASTE, MOVE_WINDOW,
RESIZE_WINDOW, MINIMIZE_WINDOW, DIRECT_WINDOW_CONTROL, else NONE" — the
ordered classifier list, for the refinement statement of the resolver. -/
def classifiersInPriorityOrder : List (GestureLabel × (Option HandPose → Bool)) :=
  [(.OK, detect_ok_gesture),
   (.THUMBS_UP, detect_thumbs_up),
   (.COPY, detect_copy_gesture),
   (.PASTE, detect_paste_gesture),
   (.MOVE_WINDOW, detect_move_window_gesture),
   (.RESIZE_WINDOW, detect_resize_window_gesture),
   (.MINIMIZE_WINDOW, detect_minimize_window_gesture),
   (.DIRECT_WINDOW_CONTROL, detect_direct_window_control_gesture)]

/-- Modelled from the spec (§4.3): first-match resolution over the ordered
classifier list, `NONE` when no classifier matches. -/
def resolveFirstMatch (hp : Option HandPose) : GestureLabel :=
  match classifiersInPriorityOrder.find? (fun lc => lc.2 hp) with
  | some lc => lc.1
  | none => .NONE

/-! ## Action dispatch (`execute_action`, `_process_gestures`,
`_process_direct_window_control`) -/

/-- One observable effect of a frame.  `launchApp` is `subprocess.Popen`,
`hotkey`/`press` are the `pyautogui` keystroke injections, `warnUnknown` is the
`"⚠️  Ação não definida para gesto: …"` print in the `else` branch of
`execute_action`.  Informational prints, on-frame drawing (`cv2.putText`) and
the `time.sleep` settle delays carry no state and are not modelled. -/
inductive Effect where
  | launchApp (name : String)
  | hotkey (keys : List String)
  | press (key : String)
  | warnUnknown (label : String)
  deriving DecidableEq, Repr

/-- The value of one entry of `ACTIONS` in `config.py`: either an `"app"`
launch or a named `"action"` keystroke behaviour. -/
inductive ActionCfg where
  | app (name : String)
  | action (kind : String)
  deriving DecidableEq, Repr

/-- The `ACTIONS` table of `config.py` (keys and the `"app"`/`"action"` field;
`description` and `color` do not influence dispatch). -/
def ACTIONS : List (String × ActionCfg) :=
  [("OK", .app "notepad.exe"),
   ("THUMBS_UP", .app "calc.exe"),
   ("PEACE_SIGN", .app "mspaint.exe"),
   ("FIST", .app "taskmgr.exe"),
   ("COPY_GESTURE", .action "copy"),
   ("PASTE_GESTURE", .action "paste"),
   ("MOVE_WINDOW", .action "move_window"),
   ("RESIZE_WINDOW", .action "resize_window"),
   ("MINIMIZE_WINDOW", .action "minimize_window"),
   ("DIRECT_WINDOW_CONTROL", .action "direct_window_control")]

/-- Per-frame external inputs: the `time.time()` reading, the screen size
returned by `pyautogui.size()` and the mouse position returned by
`pyautogui.position()`. -/
structure Env where
  now : ℚ
  screen_width : ℚ
  screen_height : ℚ
  mousePos : Int × Int
  deriving DecidableEq, Repr

/-- The session-scoped mutable fields of `GestureController` that the dispatch
core reads or writes (`_setup_controls` and `execute_action`).  The transient
`move_mode_activated` attribute is written but never read by any dispatch
decision and is omitted. -/
structure DState where
  last_action_time : ℚ
  action_cooldown : ℚ
  gesture_detected : Bool
  direct_control_active : Bool
  last_hand_position : Option (Int × Int)
  window_initial_position : Option (Int × Int)
  last_window_move_time : ℚ
  deriving DecidableEq, Repr

/-- The state set up by `GestureController._setup_controls`
(`action_cooldown` comes from `GESTURE_CONFIG['action_cooldown'] = 2.0`). -/
def initState : DState where
  last_action_time := 0
  action_cooldown := 2
  gesture_detected := false
  direct_control_active := false
  last_hand_position := none
  window_initial_position := none
  last_window_move_time := 0

/-- `GestureController.execute_action`.  Returns the successor state and the
effects of the call.  Mirrors the source exactly: the cooldown early-return
comes first; `last_action_time` is assigned *before* the `gesture_type in
ACTIONS` membership test; the `direct_window_control` action toggles
`direct_control_active` and, on activation, records the mouse position and
clears the tracked hand position. -/
def executeAction (gesture_type : String) (env : Env) (st : DState) :
    DState × List Effect :=
  if env.now - st.last_action_time < st.action_cooldown then (st, [])
  else
    let st1 := { st with last_action_time := env.now }
    match List.lookup gesture_type ACTIONS with
    | some (.app name) => (st1, [.launchApp name])
    | some (.action kind) =>
      if kind = "copy" then (st1, [.hotkey ["ctrl", "c"]])
      else if kind = "paste" then (st1, [.hotkey ["ctrl", "v"]])
      else if kind = "move_window" then (st1, [.hotkey ["alt", "space"], .press "m"])
      else if kind = "resize_window" then (st1, [.hotkey ["alt", "space"], .press "s"])
      else if kind = "minimize_window" then (st1, [.hotkey ["alt", "space"], .press "n"])
      else if kind = "direct_window_control" then
        if st1.direct_control_active = false then
          ({ st1 with direct_control_active := true,
                      window_initial_position := some env.mousePos,
                      last_hand_position := none }, [])
        else
          ({ st1 with direct_control_active := false }, [])
      else (st1, [])
    | none => (st1, [.warnUnknown gesture_type])

/-- Python `int()` applied to a rational: truncation toward zero. -/
def pyInt (q : ℚ) : Int :=
  if 0 ≤ q then ⌊q⌋ else ⌈q⌉

/-- The screen-pixel position of the palm-center landmark
(`int(palm_center_x * screen_width)`, `int(palm_center_y * screen_height)`). -/
def screenPos (hand : HandPose) (env : Env) : Int × Int :=
  (pyInt (hand.palm_center.x * env.screen_width),
   pyInt (hand.palm_center.y * env.screen_height))

/-- `GestureController._process_direct_window_control`.  Mirrors the source:
inactive mode returns immediately; when a previous position exists, the 1.0 s
`last_window_move_time` gate causes an early `return` (note: this skips the
`last_hand_position` update at the end of the method); otherwise each axis
whose absolute displacement exceeds 30 px issues one `win`+arrow hotkey and
refreshes `last_window_move_time`; finally `last_hand_position` is set to the
current position. -/
def processDirectWindowControl (hand : HandPose) (env : Env) (st : DState) :
    DState × List Effect :=
  if st.direct_control_active = false then (st, [])
  else
    let pos := screenPos hand env
    match st.last_hand_position with
    | none => ({ st with last_hand_position := some pos }, [])
    | some prev =>
      let delta_x := pos.1 - prev.1
      let delta_y := pos.2 - prev.2
      if env.now - st.last_window_move_time < 1 then (st, [])
      else
        let hEffects : List Effect :=
          if 30 < delta_x.natAbs then
            if 0 < delta_x then [.hotkey ["win", "right"]] else [.hotkey ["win", "left"]]
          else []
        let vEffects : List Effect :=
          if 30 < delta_y.natAbs then
            if 0 < delta_y then [.hotkey ["win", "down"]] else [.hotkey ["win", "up"]]
          else []
        let moveTime :=
          if 30 < delta_x.natAbs ∨ 30 < delta_y.natAbs then env.now
          else st.last_window_move_time
        ({ st with last_window_move_time := moveTime,
                   last_hand_position := some pos },
         hEffects ++ vEffects)

/-- The `ACTIONS` key string passed to `execute_action` by each branch of
`_process_gestures` (`NONE` never reaches `execute_action`). -/
def labelKey : GestureLabel → String
  | .NONE => "NONE"
  | .OK => "OK"
  | .THUMBS_UP => "THUMBS_UP"
  | .COPY => "COPY_GESTURE"
  | .PASTE => "PASTE_GESTURE"
  | .MOVE_WINDOW => "MOVE_WINDOW"
  | .RESIZE_WINDOW => "RESIZE_WINDOW"
  | .MINIMIZE_WINDOW => "MINIMIZE_WINDOW"
  | .DIRECT_WINDOW_CONTROL => "DIRECT_WINDOW_CONTROL"

/-- `GestureController._process_gestures` (together with the no-hand `else`
branch of `run`, which likewise sets `gesture_detected = False`).  Every
matching branch shares the same skeleton — draw the caption, and when
`gesture_detected` is still false, call `execute_action` and set the flag —
so the chain is expressed through `resolveGesture`; additionally the
DIRECT_WINDOW_CONTROL branch runs `_process_direct_window_control` when the
mode is active after dispatch.  The returned `Bool` records whether
`execute_action` was invoked on this frame. -/
def processGestures (hp : Option HandPose) (env : Env) (st : DState) :
    DState × List Effect × Bool :=
  let g := resolveGesture hp
  if g = .NONE then ({ st with gesture_detected := false }, [], false)
  else
    let step : DState × List Effect × Bool :=
      if st.gesture_detected then (st, [], false)
      else
        let (st', effects) := executeAction (labelKey g) env st
        ({ st' with gesture_detected := true }, effects, true)
    let (st1, effects, invoked) := step
    if g = .DIRECT_WINDOW_CONTROL ∧ st1.direct_control_active = true then
      match hp with
      | some hand =>
        let (st2, effects2) := processDirectWindowControl hand env st1
        (st2, effects ++ effects2, invoked)
      | none => (st1, effects, invoked)
    else (st1, effects, invoked)

/-- One frame of the main loop, as seen by the dispatch core: the detected
hand (or `none`) plus that frame's external readings. -/
structure Frame where
  hand : Option HandPose
  env : Env
  deriving DecidableEq, Repr

/-- Folding `processGestures` over a frame sequence, recording per frame
whether `execute_action` was invoked. -/
def runFrames : List Frame → DState → DState × List Bool
  | [], st => (st, [])
  | f :: rest, st =>
    let (st1, _, invoked) := processGestures f.hand f.env st
    let (st2, invocations) := runFrames rest st1
    (st2, invoked :: invocations)

/-! ## Shared margin predicates and effect classification -/

/-- The margined-extension test on `y` coordinates: `tip.y < joint.y − 0.02`. -/
def marginExtendedY (tip joint : ℚ) : Bool := tip < joint - 0.02

/-- The margined-closure test on `y` coordinates: `tip.y > joint.y − 0.01`. -/
def marginClosedY (tip joint : ℚ) : Bool := tip > joint - 0.01

/-- Margined extension of a digit, given its tip and proximal-joint keypoints. -/
def marginExtended (tip joint : Keypoint) : Bool := marginExtendedY tip.y joint.y

/-- Margined closure of a digit, given its tip and proximal-joint keypoints. -/
def marginClosed (tip joint : Keypoint) : Bool := marginClosedY tip.y joint.y

/-- Horizontal window-move commands (`win`+`right` / `win`+`left`). -/
def isHorizontalMove : Effect → Bool
  | .hotkey ["win", "right"] => true
  | .hotkey ["win", "left"] => true
  | _ => false

/-- Vertical window-move commands (`win`+`down` / `win`+`up`). -/
def isVerticalMove : Effect → Bool
  | .hotkey ["win", "down"] => true
  | .hotkey ["win", "up"] => true
  | _ => false

/-- Any window-move command. -/
def isWindowMove (e : Effect) : Bool := isHorizontalMove e || isVerticalMove e

/-- The horizontal commands a displacement `d` should issue according to the
spec: one `win`+`right` when `d > 30`, one `win`+`left` when `d < −30`, none
otherwise (the threshold is strict). -/
def moveCmdsH (d : Int) : List Effect :=
  if 30 < d then [.hotkey ["win", "right"]]
  else if d < -30 then [.hotkey ["win", "left"]]
  else []

/-- The vertical commands a displacement `d` should issue: one `win`+`down`
when `d > 30`, one `win`+`up` when `d < −30`, none otherwise. -/
def moveCmdsV (d : Int) : List Effect :=
  if 30 < d then [.hotkey ["win", "down"]]
  else if d < -30 then [.hotkey ["win", "up"]]
  else []

/-! ## Concrete inputs used by closed witnesses and counterexamples -/

/-- A hand with thumb tip and index tip coincident (tight pinch) and every
digit both strictly and margined extended: satisfies the OK predicate and the
DIRECT_WINDOW_CONTROL predicate simultaneously. -/
def okPinchOpenPose : HandPose where
  thumb_tip := ⟨0, 0⟩
  thumb_ip := ⟨0, 1/10⟩
  thumb_mcp := ⟨0, 2/10⟩
  index_tip := ⟨0, 0⟩
  index_pip := ⟨0, 1/10⟩
  middle_tip := ⟨1/10, 0⟩
  middle_pip := ⟨1/10, 1/10⟩
  ring_tip := ⟨2/10, 0⟩
  ring_pip := ⟨2/10, 1/10⟩
  pinky_tip := ⟨3/10, 0⟩
  pinky_pip := ⟨3/10, 1/10⟩
  palm_center := ⟨1/2, 1/2⟩

/-- A thumbs-up hand: thumb chain strictly ascending, all other digits
strictly closed. -/
def thumbsUpPose : HandPose where
  thumb_tip := ⟨0, 1/10⟩
  thumb_ip := ⟨0, 2/10⟩
  thumb_mcp := ⟨0, 3/10⟩
  index_tip := ⟨1/10, 6/10⟩
  index_pip := ⟨1/10, 5/10⟩
  middle_tip := ⟨2/10, 6/10⟩
  middle_pip := ⟨2/10, 5/10⟩
  ring_tip := ⟨3/10, 6/10⟩
  ring_pip := ⟨3/10, 5/10⟩
  pinky_tip := ⟨4/10, 6/10⟩
  pinky_pip := ⟨4/10, 5/10⟩
  palm_center := ⟨1/2, 1/2⟩

/-- A hand with every tip exactly `3/200` below its proximal joint's `y`
value: inside the dead band of the margined predicates, so every digit is
neither margined-extended nor margined-closed. -/
def deadBandPose : HandPose where
  thumb_tip := ⟨0, 97/200⟩
  thumb_ip := ⟨0, 1/2⟩
  thumb_mcp := ⟨0, 1/2⟩
  index_tip := ⟨1/10, 97/200⟩
  index_pip := ⟨1/10, 1/2⟩
  middle_tip := ⟨2/10, 97/200⟩
  middle_pip := ⟨2/10, 1/2⟩
  ring_tip := ⟨3/10, 97/200⟩
  ring_pip := ⟨3/10, 1/2⟩
  pinky_tip := ⟨4/10, 97/200⟩
  pinky_pip := ⟨4/10, 1/2⟩
  palm_center := ⟨1/2, 1/2⟩

/-- `okPinchOpenPose` with its palm-center landmark replaced, for driving the
continuous window-control mode. -/
def handAtPalm (x y : ℚ) : HandPose :=
  { okPinchOpenPose with palm_center := ⟨x, y⟩ }

/-- An environment at time `t` on a 1000×1000 px screen. -/
def envAt (t : ℚ) : Env where
  now := t
  screen_width := 1000
  screen_height := 1000
  mousePos := (0, 0)

/-- `initState` with the continuous window-control mode active, a given
tracked hand position and a given last window-move timestamp. -/
def activeState (lastPos : Option (Int × Int)) (lastMove : ℚ) : DState :=
  { initState with
      direct_control_active := true
      last_hand_position := lastPos
      last_window_move_time := lastMove }

/-! ## Theorems -/

/-- Auxiliary: `resolveFirstMatch` unfolded over the concrete classifier
list is the same `if`-cascade the code runs. -/
theorem resolveFirstMatch_eq (hp : Option HandPose) :
    resolveFirstMatch hp =
      (if detect_ok_gesture hp then GestureLabel.OK
       else if detect_thumbs_up hp then .THUMBS_UP
       else if detect_copy_gesture hp then .COPY
       else if detect_paste_gesture hp then .PASTE
       else if detect_move_window_gesture hp then .MOVE_WINDOW
       else if detect_resize_window_gesture hp then .RESIZE_WINDOW
       else if detect_minimize_window_gesture hp then .MINIMIZE_WINDOW
       else if detect_direct_window_control_gesture hp then .DIRECT_WINDOW_CONTROL
       else .NONE) := by
  simp only [resolveFirstMatch, classifiersInPriorityOrder, List.find?]
  cases h1 : detect_ok_gesture hp <;>
    cases h2 : detect_thumbs_up hp <;>
    cases h3 : detect_copy_gesture hp <;>
    cases h4 : detect_paste_gesture hp <;>
    cases h5 : detect_move_window_gesture hp <;>
    cases h6 : detect_resize_window_gesture hp <;>
    cases h7 : detect_minimize_window_gesture hp <;>
    cases h8 : detect_direct_window_control_gesture hp <;>
    simp [h1, h2, h3, h4, h5, h6, h7, h8]

/-- C1: the Resolver evaluates the classifiers in the fixed priority order
OK, THUMBS_UP, COPY, PASTE, MOVE_WINDOW, RESIZE_WINDOW, MINIMIZE_WINDOW,
DIRECT_WINDOW_CONTROL and returns the first match, else NONE; in particular a
HandPose satisfying both the OK predicate and the DIRECT_WINDOW_CONTROL
predicate resolves to OK. -/
theorem resolver_first_match_priority (hp : Option HandPose) :
    resolveGesture hp = resolveFirstMatch hp ∧
    (detect_ok_gesture hp = true →
      detect_direct_window_control_gesture hp = true →
      resolveGesture hp = .OK) := by
  refine ⟨?_, ?_⟩
  · rw [resolveFirstMatch_eq, resolveGesture]
  · intro hok _
    simp [resolveGesture, hok]

/-- C1 witness: a concrete tight-pinch open-hand pose satisfies both the OK
and the DIRECT_WINDOW_CONTROL predicates and resolves to OK. -/
theorem resolver_first_match_priority_witness :
    detect_ok_gesture (some okPinchOpenPose) = true ∧
    detect_direct_window_control_gesture (some okPinchOpenPose) = true ∧
    resolveGesture (some okPinchOpenPose) = .OK := by
  have hok : detect_ok_gesture (some okPinchOpenPose) = true := by
    norm_num [detect_ok_gesture, okPinchOpenPose, ok_distance]
  have hdwc : detect_direct_window_control_gesture (some okPinchOpenPose) = true := by
    norm_num [detect_direct_window_control_gesture, okPinchOpenPose]
  exact ⟨hok, hdwc,
    (resolver_first_match_priority (some okPinchOpenPose)).2 hok hdwc⟩

/-- C8: with no hand detected this frame (absent keypoint input), every
classifier returns false and the Resolver returns NONE — a normal result, not
an error. -/
theorem no_hand_all_classifiers_false :
    detect_ok_gesture none = false ∧
    detect_thumbs_up none = false ∧
    detect_copy_gesture none = false ∧
    detect_paste_gesture none = false ∧
    detect_move_window_gesture none = false ∧
    detect_resize_window_gesture none = false ∧
    detect_minimize_window_gesture none = false ∧
    detect_direct_window_control_gesture none = false ∧
    resolveGesture none = .NONE := by
  refine ⟨rfl, rfl, rfl, rfl, rfl, rfl, rfl, rfl, rfl⟩

/-- C9: the COPY classifier is exactly "index and middle margined-extended,
thumb (against its IP joint), ring and pinky margined-closed", and the same
margin constants 0.02 / 0.01 — packaged once in `marginExtended` /
`marginClosed` — govern PASTE, MOVE_WINDOW, RESIZE_WINDOW and
DIRECT_WINDOW_CONTROL. -/
theorem copy_classifier_margins (p : HandPose) :
    (detect_copy_gesture (some p) =
      (marginExtended p.index_tip p.index_pip &&
       marginExtended p.middle_tip p.middle_pip &&
       marginClosed p.thumb_tip p.thumb_ip &&
       marginClosed p.ring_tip p.ring_pip &&
       marginClosed p.pinky_tip p.pinky_pip)) ∧
    (detect_paste_gesture (some p) =
      (marginExtended p.thumb_tip p.thumb_ip &&
       marginExtended p.index_tip p.index_pip &&
       marginClosed p.middle_tip p.middle_pip &&
       marginClosed p.ring_tip p.ring_pip &&
       marginClosed p.pinky_tip p.pinky_pip)) ∧
    (detect_move_window_gesture (some p) =
      (marginExtended p.index_tip p.index_pip &&
       marginExtended p.middle_tip p.middle_pip &&
       marginExtended p.ring_tip p.ring_pip &&
       marginClosed p.thumb_tip p.thumb_ip &&
       marginClosed p.pinky_tip p.pinky_pip)) ∧
    (detect_resize_window_gesture (some p) =
      (marginExtended p.thumb_tip p.thumb_ip &&
       marginExtended p.index_tip p.index_pip &&
       marginExtended p.middle_tip p.middle_pip &&
       marginClosed p.ring_tip p.ring_pip &&
       marginClosed p.pinky_tip p.pinky_pip)) ∧
    (detect_direct_window_control_gesture (some p) =
      (marginExtended p.thumb_tip p.thumb_ip &&
       marginExtended p.index_tip p.index_pip &&
       marginExtended p.middle_tip p.middle_pip &&
       marginExtended p.ring_tip p.ring_pip &&
       marginExtended p.pinky_tip p.pinky_pip)) := by
  refine ⟨rfl, rfl, rfl, rfl, rfl⟩

/-- C10: the margined predicates are mutually exclusive but not exhaustive
(the dead band `[joint.y − 0.02, joint.y − 0.01]` satisfies neither), COPY and
PASTE are never simultaneously true, and there is a HandPose on which none of
the five margined classifiers holds. -/
theorem margin_predicates_exclusive_not_exhaustive :
    (∀ tipY jointY : ℚ,
      ¬(marginExtendedY tipY jointY = true ∧ marginClosedY tipY jointY = true)) ∧
    (∀ tipY jointY : ℚ, jointY - 0.02 ≤ tipY → tipY ≤ jointY - 0.01 →
      marginExtendedY tipY jointY = false ∧ marginClosedY tipY jointY = false) ∧
    (∀ p : HandPose,
      ¬(detect_copy_gesture (some p) = true ∧ detect_paste_gesture (some p) = true)) ∧
    (∃ p : HandPose,
      detect_copy_gesture (some p) = false ∧
      detect_paste_gesture (some p) = false ∧
      detect_move_window_gesture (some p) = false ∧
      detect_resize_window_gesture (some p) = false ∧
      detect_direct_window_control_gesture (some p) = false) := by
  refine ⟨?_, ?_, ?_, ?_⟩
  · intro tipY jointY ⟨hext, hcl⟩
    simp only [marginExtendedY, marginClosedY, decide_eq_true_eq, gt_iff_lt] at hext hcl
    linarith
  · intro tipY jointY hlo hhi
    constructor
    · simp only [marginExtendedY, decide_eq_false_iff_not, not_lt]
      linarith
    · simp only [marginClosedY, decide_eq_false_iff_not, gt_iff_lt, not_lt]
      linarith
  · intro p ⟨hcopy, hpaste⟩
    simp only [detect_copy_gesture, Bool.and_eq_true, decide_eq_true_eq] at hcopy
    simp only [detect_paste_gesture, Bool.and_eq_true, decide_eq_true_eq] at hpaste
    obtain ⟨⟨⟨⟨-, h1⟩, -⟩, -⟩, -⟩ := hcopy
    obtain ⟨⟨⟨-, h2⟩, -⟩, -⟩ := hpaste
    linarith
  · refine ⟨deadBandPose, ?_, ?_, ?_, ?_, ?_⟩ <;>
      norm_num [detect_copy_gesture, detect_paste_gesture,
        detect_move_window_gesture, detect_resize_window_gesture,
        detect_direct_window_control_gesture, deadBandPose]

/-- C10 witness: the dead-band hypotheses of the non-exhaustiveness part are
satisfied at the concrete point `tip.y = −3/200`, `joint.y = 0`, where both
margined predicates are false. -/
theorem margin_predicates_exclusive_not_exhaustive_witness :
    marginExtendedY (-3/200) 0 = false ∧ marginClosedY (-3/200) 0 = false := by
  exact margin_predicates_exclusive_not_exhaustive.2.1 (-3/200) 0
    (by norm_num) (by norm_num)

/-- Auxiliary: inside the cooldown window, `execute_action` returns without
touching anything. -/
theorem executeAction_noop_of_cooldown (label : String) (env : Env) (st : DState)
    (h : env.now - st.last_action_time < st.action_cooldown) :
    executeAction label env st = (st, []) := by
  unfold executeAction
  rw [if_pos h]

/-- Auxiliary: whatever branch is taken past the cooldown guard,
`execute_action` writes `now` into `last_action_time` and leaves
`action_cooldown` and `gesture_detected` untouched. -/
theorem executeAction_past_cooldown (label : String) (env : Env) (st : DState)
    (h : st.action_cooldown ≤ env.now - st.last_action_time) :
    (executeAction label env st).1.last_action_time = env.now ∧
    (executeAction label env st).1.action_cooldown = st.action_cooldown ∧
    (executeAction label env st).1.gesture_detected = st.gesture_detected := by
  unfold executeAction
  rw [if_neg (by linarith)]
  rcases List.lookup label ACTIONS with - | cfg
  · exact ⟨rfl, rfl, rfl⟩
  · rcases cfg with name | kind
    · exact ⟨rfl, rfl, rfl⟩
    · simp only
      split_ifs <;> exact ⟨rfl, rfl, rfl⟩

/-- C3: inside the cooldown window `execute_action` is a complete no-op
(unchanged state, no effects); past the cooldown it stamps `last_action_time`
with `now`; hence a second call — for any label — less than `action_cooldown`
seconds after a first that passed the cooldown does nothing. -/
theorem execute_cooldown_policy (label : String) (env : Env) (st : DState) :
    (env.now - st.last_action_time < st.action_cooldown →
      executeAction label env st = (st, [])) ∧
    (st.action_cooldown ≤ env.now - st.last_action_time →
      (executeAction label env st).1.last_action_time = env.now) ∧
    (∀ (label2 : String) (env2 : Env),
      st.action_cooldown ≤ env.now - st.last_action_time →
      env2.now - env.now < st.action_cooldown →
      executeAction label2 env2 (executeAction label env st).1 =
        ((executeAction label env st).1, [])) := by
  refine ⟨executeAction_noop_of_cooldown label env st, ?_, ?_⟩
  · intro h
    exact (executeAction_past_cooldown label env st h).1
  · intro label2 env2 h h2
    obtain ⟨htime, hcd, -⟩ := executeAction_past_cooldown label env st h
    exact executeAction_noop_of_cooldown label2 env2 _ (by rw [htime, hcd]; linarith)

/-- C3 witness: with the default 2.0 s cooldown and `last_action_time = 0`, a
call at `t = 1` is a no-op, a call at `t = 10` stamps the time, and a second
call at `t = 11` (a different gesture, 1 s later) after the one at `t = 10`
is again a no-op. -/
theorem execute_cooldown_policy_witness :
    executeAction "OK" (envAt 1) initState = (initState, []) ∧
    (executeAction "OK" (envAt 10) initState).1.last_action_time = 10 ∧
    executeAction "THUMBS_UP" (envAt 11) (executeAction "OK" (envAt 10) initState).1 =
      ((executeAction "OK" (envAt 10) initState).1, []) := by
  refine ⟨(execute_cooldown_policy "OK" (envAt 1) initState).1 (by norm_num [envAt, initState]),
    (execute_cooldown_policy "OK" (envAt 10) initState).2.1 (by norm_num [envAt, initState]),
    (execute_cooldown_policy "OK" (envAt 10) initState).2.2 "THUMBS_UP" (envAt 11)
      (by norm_num [envAt, initState]) (by norm_num [envAt, initState])⟩

/-- C4 (amended): a label missing from `ACTIONS` logs the unknown-label
warning and performs no OS side effect, but — contrary to the claim — when it
arrives past the cooldown it still stamps `last_action_time := now` (the
assignment precedes the membership test), thereby consuming the cooldown
window; inside the cooldown it is a full no-op without even the warning. -/
theorem execute_unknown_label_policy (label : String) (env : Env) (st : DState)
    (hunk : List.lookup label ACTIONS = none) :
    (st.action_cooldown ≤ env.now - st.last_action_time →
      executeAction label env st =
        ({ st with last_action_time := env.now }, [.warnUnknown label])) ∧
    (env.now - st.last_action_time < st.action_cooldown →
      executeAction label env st = (st, [])) := by
  constructor
  · intro h
    unfold executeAction
    rw [if_neg (by linarith)]
    rw [hunk]
  · exact executeAction_noop_of_cooldown label env st

/-- C4 counterexample: the unknown label `"FOO"` dispatched at `t = 10` from
the initial state (cooldown long expired) logs the warning but *changes* the
DetectionState: `last_action_time` moves from 0 to 10, consuming the cooldown
window — refuting "leaves the DetectionState (including last_action_time)
unchanged". -/
theorem execute_unknown_label_counterexample :
    List.lookup "FOO" ACTIONS = none ∧
    initState.last_action_time = 0 ∧
    (envAt 10).now - initState.last_action_time ≥ initState.action_cooldown ∧
    executeAction "FOO" (envAt 10) initState =
      ({ initState with last_action_time := 10 }, [.warnUnknown "FOO"]) ∧
    ({ initState with last_action_time := 10 } : DState).last_action_time ≠
      initState.last_action_time := by
  refine ⟨rfl, rfl, by norm_num [envAt, initState], ?_, by norm_num [initState]⟩
  have h : ¬ ((envAt 10).now - initState.last_action_time < initState.action_cooldown) := by
    norm_num [envAt, initState]
  unfold executeAction
  rw [if_neg h]
  rfl

/-- C4 witness: the amended policy applied to the concrete unknown label
`"FOO"`, once past the cooldown and once inside it. -/
theorem execute_unknown_label_policy_witness :
    executeAction "FOO" (envAt 10) initState =
      ({ initState with last_action_time := 10 }, [.warnUnknown "FOO"]) ∧
    executeAction "FOO" (envAt 1) initState = (initState, []) :=
  ⟨(execute_unknown_label_policy "FOO" (envAt 10) initState rfl).1
      (by norm_num [envAt, initState]),
   (execute_unknown_label_policy "FOO" (envAt 1) initState rfl).2
      (by norm_num [envAt, initState])⟩

/-- Auxiliary: the continuous-control processing never touches the
edge-trigger flag. -/
theorem processDirectWindowControl_gesture_detected
    (hand : HandPose) (env : Env) (st : DState) :
    (processDirectWindowControl hand env st).1.gesture_detected = st.gesture_detected := by
  rcases h : st.last_hand_position with - | prev <;>
    simp only [processDirectWindowControl, h] <;>
    split_ifs <;> rfl

/-- Auxiliary: with the sustained flag set and a non-NONE label,
`_process_gestures` performs no invocation and keeps the flag set. -/
theorem processGestures_sustained_no_invoke (hp : Option HandPose) (env : Env) (st : DState)
    (hg : resolveGesture hp ≠ .NONE) (hd : st.gesture_detected = true) :
    (processGestures hp env st).2.2 = false ∧
    (processGestures hp env st).1.gesture_detected = true := by
  unfold processGestures
  rw [if_neg hg]
  simp only [hd, if_true]
  split
  · cases hp with
    | none => exact ⟨rfl, hd⟩
    | some hand =>
      refine ⟨rfl, ?_⟩
      show (processDirectWindowControl hand env st).1.gesture_detected = true
      rw [processDirectWindowControl_gesture_detected]
      exact hd
  · exact ⟨rfl, hd⟩

/-- Auxiliary: with the sustained flag clear and a non-NONE label,
`_process_gestures` invokes `execute_action` and sets the flag. -/
theorem processGestures_rising_edge (hp : Option HandPose) (env : Env) (st : DState)
    (hg : resolveGesture hp ≠ .NONE) (hd : st.gesture_detected = false) :
    (processGestures hp env st).2.2 = true ∧
    (processGestures hp env st).1.gesture_detected = true := by
  unfold processGestures
  rw [if_neg hg]
  simp only [hd, if_false, Bool.false_eq_true]
  rcases hEA : executeAction (labelKey (resolveGesture hp)) env st with ⟨st1, effs⟩
  simp only [hEA]
  split
  · cases hp with
    | none => exact ⟨rfl, rfl⟩
    | some hand =>
      refine ⟨rfl, ?_⟩
      show (processDirectWindowControl hand env
        { st1 with gesture_detected := true }).1.gesture_detected = true
      rw [processDirectWindowControl_gesture_detected]
  · exact ⟨rfl, rfl⟩

/-- Auxiliary: when the Resolver yields NONE, `_process_gestures` only clears
the sustained flag. -/
theorem processGestures_none_resets (hp : Option HandPose) (env : Env) (st : DState)
    (hg : resolveGesture hp = .NONE) :
    processGestures hp env st = ({ st with gesture_detected := false }, [], false) := by
  unfold processGestures
  rw [if_pos hg]

/-- Auxiliary: while the sustained flag stays set, a run of frames whose
labels all resolve non-NONE performs no invocation at all. -/
theorem runFrames_sustained (frames : List Frame) (st : DState)
    (hd : st.gesture_detected = true)
    (hall : ∀ f ∈ frames, resolveGesture f.hand ≠ .NONE) :
    (runFrames frames st).2 = List.replicate frames.length false ∧
    (runFrames frames st).1.gesture_detected = true := by
  induction frames generalizing st with
  | nil => exact ⟨rfl, hd⟩
  | cons f rest ih =>
    have hf := hall f (List.mem_cons_self f rest)
    have hstep := processGestures_sustained_no_invoke f.hand f.env st hf hd
    rcases hP : processGestures f.hand f.env st with ⟨st1, effs, inv⟩
    rw [hP] at hstep
    have hrest := ih st1 hstep.2 (fun f2 hm => hall f2 (List.mem_cons_of_mem f hm))
    rcases hR : runFrames rest st1 with ⟨st2, invs⟩
    rw [hR] at hrest
    have hi : inv = false := hstep.1
    have hv : invs = List.replicate rest.length false := hrest.1
    have hgd : st2.gesture_detected = true := hrest.2
    simp only [runFrames, hP, hR, List.length_cons, List.replicate_succ]
    exact ⟨by rw [hi, hv], hgd⟩

/-- C2 (amended): `execute` is invoked only on the rising edge of the
sustained flag; a sustained same-label stream of `N > 1` frames invokes
exactly once, at the first frame; the flag resets the instant the Resolver
yields NONE; but — contrary to the claim — a different non-NONE label does
*not* reset the flag: while it is set, any non-NONE label is absorbed without
a new invocation. -/
theorem edge_trigger_policy :
    (∀ (hp : Option HandPose) (env : Env) (st : DState),
      (processGestures hp env st).2.2 = true →
        st.gesture_detected = false ∧ resolveGesture hp ≠ .NONE) ∧
    (∀ (hp : Option HandPose) (env : Env) (st : DState),
      resolveGesture hp = .NONE →
        processGestures hp env st = ({ st with gesture_detected := false }, [], false)) ∧
    (∀ (hp : Option HandPose) (env : Env) (st : DState),
      resolveGesture hp ≠ .NONE → st.gesture_detected = true →
        (processGestures hp env st).2.2 = false ∧
        (processGestures hp env st).1.gesture_detected = true) ∧
    (∀ (f : Frame) (rest : List Frame) (st : DState) (g : GestureLabel),
      g ≠ .NONE → st.gesture_detected = false →
      resolveGesture f.hand = g → (∀ f2 ∈ rest, resolveGesture f2.hand = g) →
      (runFrames (f :: rest) st).2 = true :: List.replicate rest.length false) := by
  refine ⟨?_, processGestures_none_resets, processGestures_sustained_no_invoke, ?_⟩
  · intro hp env st hinv
    by_cases hg : resolveGesture hp = .NONE
    · rw [processGestures_none_resets hp env st hg] at hinv
      cases hinv
    · rcases hd : st.gesture_detected with - | -
      · exact ⟨rfl, hg⟩
      · have := (processGestures_sustained_no_invoke hp env st hg hd).1
        rw [hinv] at this
        cases this
  · intro f rest st g hg hd hf hall
    have hstep := processGestures_rising_edge f.hand f.env st (by rw [hf]; exact hg) hd
    rcases hP : processGestures f.hand f.env st with ⟨st1, effs, inv⟩
    rw [hP] at hstep
    have hrest := runFrames_sustained rest st1 hstep.2
      (fun f2 hm => by rw [hall f2 hm]; exact hg)
    rcases hR : runFrames rest st1 with ⟨st2, invs⟩
    rw [hR] at hrest
    have hi : inv = true := hstep.1
    have hv : invs = List.replicate rest.length false := hrest.1
    simp only [runFrames, hP, hR]
    rw [hi, hv]

/-- C2 counterexample: after a frame sustaining OK, a cooldown-clear frame
with the *different* non-NONE label THUMBS_UP does not produce a new
invocation — the run `[OK-pose at t=0, thumbs-up-pose at t=10]` invokes
`execute` on the first frame only, refuting "a frame whose label differs from
the previously sustained non-NONE label produces a new rising edge (a new
invocation, subject only to cooldown)". -/
theorem edge_trigger_different_label_counterexample :
    resolveGesture (some okPinchOpenPose) = .OK ∧
    resolveGesture (some thumbsUpPose) = .THUMBS_UP ∧
    GestureLabel.THUMBS_UP ≠ .OK ∧ GestureLabel.THUMBS_UP ≠ .NONE ∧
    initState.action_cooldown = 2 ∧ (envAt 10).now - (envAt 0).now = 10 ∧
    (runFrames [⟨some okPinchOpenPose, envAt 0⟩, ⟨some thumbsUpPose, envAt 10⟩]
        initState).2 = [true, false] := by
  have h1 : (GestureLabel.OK = GestureLabel.NONE) = False := by simp
  have h2 : (GestureLabel.THUMBS_UP = GestureLabel.NONE) = False := by simp
  have h3 : (GestureLabel.OK = GestureLabel.DIRECT_WINDOW_CONTROL) = False := by simp
  have h4 : (GestureLabel.THUMBS_UP = GestureLabel.DIRECT_WINDOW_CONTROL) = False := by simp
  refine ⟨?_, ?_, by simp, by simp, rfl, by norm_num [envAt], ?_⟩
  · norm_num [resolveGesture, detect_ok_gesture, okPinchOpenPose, ok_distance]
  · norm_num [resolveGesture, detect_ok_gesture, detect_thumbs_up, thumbsUpPose, ok_distance]
  · norm_num [runFrames, processGestures, resolveGesture, detect_ok_gesture, detect_thumbs_up,
      detect_copy_gesture, detect_paste_gesture, detect_move_window_gesture,
      detect_resize_window_gesture, detect_minimize_window_gesture,
      detect_direct_window_control_gesture, okPinchOpenPose, thumbsUpPose, ok_distance,
      executeAction, labelKey, ACTIONS, envAt, initState, List.lookup, h1, h2, h3, h4]

/-- C2 witness: two consecutive OK frames invoke exactly once, at the first
frame, and a no-hand frame resets the flag. -/
theorem edge_trigger_policy_witness :
    (runFrames [⟨some okPinchOpenPose, envAt 0⟩, ⟨some okPinchOpenPose, envAt 1⟩]
        initState).2 = true :: List.replicate 1 false ∧
    processGestures none (envAt 0) initState =
      ({ initState with gesture_detected := false }, [], false) := by
  have hres : resolveGesture (some okPinchOpenPose) = .OK := by
    norm_num [resolveGesture, detect_ok_gesture, okPinchOpenPose, ok_distance]
  refine ⟨?_, edge_trigger_policy.2.1 none (envAt 0) initState rfl⟩
  exact edge_trigger_policy.2.2.2 ⟨some okPinchOpenPose, envAt 0⟩
    [⟨some okPinchOpenPose, envAt 1⟩] initState .OK (by simp) rfl hres
    (fun f2 hm => by rw [List.mem_singleton] at hm; subst hm; exact hres)

end GestIQ


namespace GestIQ

/-- Auxiliary: an ACTIVE frame with an established previous position inside
the 1.0 s window-move gate returns early: no commands, and no state update at
all (in particular the position cache is not refreshed). -/
theorem processDirectWindowControl_gated (hand : HandPose) (env : Env) (st : DState)
    (prev : Int × Int)
    (hactive : st.direct_control_active = true)
    (hprev : st.last_hand_position = some prev)
    (hg : env.now - st.last_window_move_time < 1) :
    processDirectWindowControl hand env st = (st, []) := by
  simp only [processDirectWindowControl, hactive, hprev]
  rw [if_neg (by simp), if_pos hg]

/-- Auxiliary: the absolute-value threshold test of the source and the signed
two-sided test agree. -/
theorem natAbs_threshold_cmds (d : Int) (pos neg : List Effect) :
    (if 30 < d.natAbs then (if 0 < d then pos else neg) else []) =
    (if 30 < d then pos else if d < -30 then neg else []) := by
  by_cases h : 30 < d.natAbs
  · rw [if_pos h]
    by_cases hp : 0 < d
    · rw [if_pos hp, if_pos (by omega)]
    · rw [if_neg hp, if_neg (by omega), if_pos (by omega)]
  · rw [if_neg h, if_neg (by omega), if_neg (by omega)]

/-- Auxiliary: the effect list of an ACTIVE, baseline-established, gate-open
frame is exactly the per-axis command lists dictated by the signed
displacements. -/
theorem processDirectWindowControl_effects (hand : HandPose) (env : Env) (st : DState)
    (prev : Int × Int)
    (hactive : st.direct_control_active = true)
    (hprev : st.last_hand_position = some prev)
    (hgate : 1 ≤ env.now - st.last_window_move_time) :
    (processDirectWindowControl hand env st).2 =
      moveCmdsH ((screenPos hand env).1 - prev.1) ++
      moveCmdsV ((screenPos hand env).2 - prev.2) := by
  simp only [processDirectWindowControl, hactive, hprev]
  rw [if_neg (by simp), if_neg (by linarith)]
  simp only [moveCmdsH, moveCmdsV, natAbs_threshold_cmds]

end GestIQ


namespace GestIQ

/-- Auxiliary: filtering the two-axis command list per axis recovers each
axis's commands. -/
theorem moveCmds_filter (a b : Int) :
    (moveCmdsH a ++ moveCmdsV b).filter isHorizontalMove = moveCmdsH a ∧
    (moveCmdsH a ++ moveCmdsV b).filter isVerticalMove = moveCmdsV b := by
  unfold moveCmdsH moveCmdsV
  split_ifs <;> exact ⟨rfl, rfl⟩

/-- Auxiliary: a frame that issues at least one command stamps
`last_window_move_time` with the frame's time, caches the current screen
position, and leaves the mode flag unchanged. -/
theorem processDirectWindowControl_issued (hand : HandPose) (env : Env) (st : DState)
    (hne : (processDirectWindowControl hand env st).2 ≠ []) :
    (processDirectWindowControl hand env st).1.last_window_move_time = env.now ∧
    (processDirectWindowControl hand env st).1.last_hand_position =
      some (screenPos hand env) ∧
    (processDirectWindowControl hand env st).1.direct_control_active =
      st.direct_control_active := by
  by_cases ha : st.direct_control_active = false
  · exact absurd (by simp only [processDirectWindowControl, ha, if_true]) hne
  have ha2 : st.direct_control_active = true := by
    revert ha
    cases st.direct_control_active <;> simp
  rcases hprev : st.last_hand_position with - | prev
  · refine absurd ?_ hne
    simp only [processDirectWindowControl, hprev]
    rw [if_neg ha]
  by_cases hg : env.now - st.last_window_move_time < 1
  · rw [processDirectWindowControl_gated hand env st prev ha2 hprev hg] at hne
    exact absurd rfl hne
  by_cases hc : 30 < ((screenPos hand env).1 - prev.1).natAbs ∨
      30 < ((screenPos hand env).2 - prev.2).natAbs
  · simp only [processDirectWindowControl, hprev]
    rw [if_neg ha, if_neg hg]
    exact ⟨by rw [if_pos hc], rfl, rfl⟩
  · push_neg at hc
    exact absurd (by
      simp only [processDirectWindowControl, hprev]
      rw [if_neg ha, if_neg hg]
      simp only [if_neg (by omega : ¬ 30 < ((screenPos hand env).1 - prev.1).natAbs),
        if_neg (by omega : ¬ 30 < ((screenPos hand env).2 - prev.2).natAbs),
        List.append_nil]) hne

end GestIQ


namespace GestIQ

/-- C5 (amended): on an ACTIVE frame with a detected hand the previous-position
cache is updated to the current screen position when no baseline exists yet or
when the 1.0 s move gate is open — but, contrary to the claim, on a frame
where the gate suppresses the commands the early `return` also skips the cache
update, leaving the stale previous position in place. -/
theorem direct_control_position_cache_policy (hand : HandPose) (env : Env) (st : DState)
    (hactive : st.direct_control_active = true) :
    (st.last_hand_position = none →
      (processDirectWindowControl hand env st).1.last_hand_position =
        some (screenPos hand env)) ∧
    (∀ prev, st.last_hand_position = some prev →
      env.now - st.last_window_move_time < 1 →
      (processDirectWindowControl hand env st).1.last_hand_position = some prev) ∧
    (∀ prev, st.last_hand_position = some prev →
      1 ≤ env.now - st.last_window_move_time →
      (processDirectWindowControl hand env st).1.last_hand_position =
        some (screenPos hand env)) := by
  refine ⟨?_, ?_, ?_⟩
  · intro h
    simp only [processDirectWindowControl, hactive, h]
    rw [if_neg (by simp)]
  · intro prev hprev hg
    rw [processDirectWindowControl_gated hand env st prev hactive hprev hg]
    exact hprev
  · intro prev hprev hg
    simp only [processDirectWindowControl, hactive, hprev]
    rw [if_neg (by simp), if_neg (by linarith)]

/-- C5 counterexample: ACTIVE frame, baseline `(0,0)`, hand now at screen
position `(100,100)`, but only 0.5 s after the last move — the gate's early
return leaves `last_hand_position` at `(0,0)` instead of updating it to
`(100,100)`, refuting "updated on every ACTIVE frame … in particular also on
frames where the 1.0-second move gate suppresses the commands". -/
theorem direct_control_cache_gate_counterexample :
    (activeState (some (0, 0)) (19/2)).direct_control_active = true ∧
    screenPos (handAtPalm (1/10) (1/10)) (envAt 10) = (100, 100) ∧
    (envAt 10).now - (activeState (some (0, 0)) (19/2)).last_window_move_time < 1 ∧
    processDirectWindowControl (handAtPalm (1/10) (1/10)) (envAt 10)
        (activeState (some (0, 0)) (19/2)) =
      (activeState (some (0, 0)) (19/2), []) ∧
    (activeState (some (0, 0)) (19/2)).last_hand_position = some (0, 0) ∧
    ((0, 0) : Int × Int) ≠ (100, 100) := by
  refine ⟨rfl, ?_, by norm_num [envAt, activeState, initState], ?_, rfl, by decide⟩
  · norm_num [screenPos, pyInt, handAtPalm, okPinchOpenPose, envAt]
  · exact processDirectWindowControl_gated _ _ _ (0, 0) rfl rfl
      (by norm_num [envAt, activeState, initState])

/-- C5 witness: the amended cache policy at concrete inputs — a gated frame
keeps the stale `(0,0)`, a gate-open frame refreshes the cache. -/
theorem direct_control_position_cache_policy_witness :
    (processDirectWindowControl (handAtPalm (1/10) (1/10)) (envAt 10)
        (activeState (some (0, 0)) (19/2))).1.last_hand_position = some (0, 0) ∧
    (processDirectWindowControl (handAtPalm (1/10) (1/10)) (envAt 10)
        (activeState (some (0, 0)) 0)).1.last_hand_position =
      some (screenPos (handAtPalm (1/10) (1/10)) (envAt 10)) :=
  ⟨(direct_control_position_cache_policy _ _ _ rfl).2.1 (0, 0) rfl
      (by norm_num [envAt, activeState, initState]),
   (direct_control_position_cache_policy _ _ _ rfl).2.2 (0, 0) rfl
      (by norm_num [envAt, activeState, initState])⟩

/-- C6: on an ACTIVE, baseline-established frame with the 1.0 s gate open, the
issued commands are exactly `moveCmdsH delta_x ++ moveCmdsV delta_y`: one
horizontal command iff `|delta_x| > 30` (strict — 30 issues nothing), with the
sign of `delta_x` selecting right/left, and identically for the vertical
axis; filtering per axis isolates each axis's single command. -/
theorem direct_control_move_threshold (hand : HandPose) (env : Env) (st : DState)
    (prev : Int × Int)
    (hactive : st.direct_control_active = true)
    (hprev : st.last_hand_position = some prev)
    (hgate : 1 ≤ env.now - st.last_window_move_time) :
    ((processDirectWindowControl hand env st).2 =
      moveCmdsH ((screenPos hand env).1 - prev.1) ++
      moveCmdsV ((screenPos hand env).2 - prev.2)) ∧
    ((processDirectWindowControl hand env st).2.filter isHorizontalMove =
      moveCmdsH ((screenPos hand env).1 - prev.1)) ∧
    ((processDirectWindowControl hand env st).2.filter isVerticalMove =
      moveCmdsV ((screenPos hand env).2 - prev.2)) := by
  have he := processDirectWindowControl_effects hand env st prev hactive hprev hgate
  rw [he]
  exact ⟨rfl, (moveCmds_filter _ _).1, (moveCmds_filter _ _).2⟩

/-- C6 witness: a 31 px rightward displacement issues exactly one
`win`+`right` and nothing vertical; 29 px and exactly 30 px issue nothing. -/
theorem direct_control_move_threshold_witness :
    (processDirectWindowControl (handAtPalm (31/1000) 0) (envAt 10)
        (activeState (some (0, 0)) 0)).2 = [Effect.hotkey ["win", "right"]] ∧
    (processDirectWindowControl (handAtPalm (29/1000) 0) (envAt 10)
        (activeState (some (0, 0)) 0)).2 = [] ∧
    (processDirectWindowControl (handAtPalm (30/1000) 0) (envAt 10)
        (activeState (some (0, 0)) 0)).2 = [] := by
  have h31 := (direct_control_move_threshold (handAtPalm (31/1000) 0) (envAt 10)
    (activeState (some (0, 0)) 0) (0, 0) rfl rfl
    (by norm_num [envAt, activeState, initState])).1
  have h29 := (direct_control_move_threshold (handAtPalm (29/1000) 0) (envAt 10)
    (activeState (some (0, 0)) 0) (0, 0) rfl rfl
    (by norm_num [envAt, activeState, initState])).1
  have h30 := (direct_control_move_threshold (handAtPalm (30/1000) 0) (envAt 10)
    (activeState (some (0, 0)) 0) (0, 0) rfl rfl
    (by norm_num [envAt, activeState, initState])).1
  refine ⟨?_, ?_, ?_⟩
  · rw [h31]
    norm_num [screenPos, pyInt, handAtPalm, okPinchOpenPose, envAt, moveCmdsH, moveCmdsV]
  · rw [h29]
    norm_num [screenPos, pyInt, handAtPalm, okPinchOpenPose, envAt, moveCmdsH, moveCmdsV]
  · rw [h30]
    norm_num [screenPos, pyInt, handAtPalm, okPinchOpenPose, envAt, moveCmdsH, moveCmdsV]

/-- C7 counterexample: a single diagonal displacement of `(40, 40)` px with
the gate open issues *two* window-move commands in the same frame — the
vertical `win`+`down` follows the horizontal `win`+`right` well inside 1.0 s
(within the same frame, 0.5 s after it in wall time because of the settle
sleep) — refuting "no window-move command (on either axis) is ever issued
within 1.0 seconds of the previous issued move command". -/
theorem micro_cooldown_same_frame_counterexample :
    1 ≤ (envAt 10).now - (activeState (some (0, 0)) 0).last_window_move_time ∧
    screenPos (handAtPalm (40/1000) (40/1000)) (envAt 10) = (40, 40) ∧
    (processDirectWindowControl (handAtPalm (40/1000) (40/1000)) (envAt 10)
        (activeState (some (0, 0)) 0)).2 =
      [Effect.hotkey ["win", "right"], Effect.hotkey ["win", "down"]] ∧
    isWindowMove (Effect.hotkey ["win", "right"]) = true ∧
    isWindowMove (Effect.hotkey ["win", "down"]) = true := by
  refine ⟨by norm_num [envAt, activeState, initState], ?_, ?_, rfl, rfl⟩
  · norm_num [screenPos, pyInt, handAtPalm, okPinchOpenPose, envAt]
  · rw [processDirectWindowControl_effects _ _ _ (0, 0) rfl rfl
      (by norm_num [envAt, activeState, initState])]
    norm_num [screenPos, pyInt, handAtPalm, okPinchOpenPose, envAt, moveCmdsH, moveCmdsV]

/-- C7 (amended): across frames the gate holds — a frame that issues any move
command stamps `last_window_move_time` with its time, and any later frame
less than 1.0 s after it issues no move command at all, regardless of
displacement; within a single frame, however, one horizontal and one vertical
command may be issued together. -/
theorem micro_cooldown_across_frames (hand1 hand2 : HandPose) (env1 env2 : Env)
    (st : DState)
    (hactive : st.direct_control_active = true)
    (hne : (processDirectWindowControl hand1 env1 st).2 ≠ [])
    (hclose : env2.now - env1.now < 1) :
    (processDirectWindowControl hand1 env1 st).1.last_window_move_time = env1.now ∧
    (processDirectWindowControl hand2 env2
        (processDirectWindowControl hand1 env1 st).1).2 = [] := by
  obtain ⟨ht, hpos, hact⟩ := processDirectWindowControl_issued hand1 env1 st hne
  refine ⟨ht, ?_⟩
  rw [processDirectWindowControl_gated hand2 env2 _ (screenPos hand1 env1)
    (by rw [hact]; exact hactive) hpos (by rw [ht]; linarith)]

/-- C7 witness: the `(40,40)` frame at `t = 10` issues moves and stamps the
gate; a frame 0.5 s later with a huge displacement issues nothing. -/
theorem micro_cooldown_across_frames_witness :
    (processDirectWindowControl (handAtPalm (40/1000) (40/1000)) (envAt 10)
        (activeState (some (0, 0)) 0)).1.last_window_move_time = 10 ∧
    (processDirectWindowControl (handAtPalm (1/2) (1/2)) (envAt (21/2))
        (processDirectWindowControl (handAtPalm (40/1000) (40/1000)) (envAt 10)
          (activeState (some (0, 0)) 0)).1).2 = [] := by
  have hval : (processDirectWindowControl (handAtPalm (40/1000) (40/1000)) (envAt 10)
      (activeState (some (0, 0)) 0)).2 =
      [Effect.hotkey ["win", "right"], Effect.hotkey ["win", "down"]] := by
    rw [processDirectWindowControl_effects _ _ _ (0, 0) rfl rfl
      (by norm_num [envAt, activeState, initState])]
    norm_num [screenPos, pyInt, handAtPalm, okPinchOpenPose, envAt, moveCmdsH, moveCmdsV]
  have hne : (processDirectWindowControl (handAtPalm (40/1000) (40/1000)) (envAt 10)
      (activeState (some (0, 0)) 0)).2 ≠ [] := by
    rw [hval]
    simp
  have h := micro_cooldown_across_frames (handAtPalm (40/1000) (40/1000))
    (handAtPalm (1/2) (1/2)) (envAt 10) (envAt (21/2)) (activeState (some (0, 0)) 0)
    rfl hne (by norm_num [envAt])
  exact ⟨h.1, h.2⟩

end GestIQ
